import Mathlib

/-!
Shallow embedding of the Nest learning-management backend (auth services,
JWT gate, courses, enrollments) and of the client response interceptor,
together with proofs of the specification's claims.
-/

/-- A stored principal record (the users table), from src/src/users/user.entity.ts:
id, name, unique email, (hashed) password, role. -/
structure User where
  id : Nat
  name : String
  email : String
  password : String
  role : String
  deriving DecidableEq

/-- The redacted principal view (no password field) returned by login and
registration responses: { id, name, email, role }. -/
structure PublicUser where
  id : Nat
  name : String
  email : String
  role : String
  deriving DecidableEq

/-- The HTTP-level exception kinds thrown by the backend: UnauthorizedException
(401, NotAuthenticated), ForbiddenException (403), ConflictException (409),
NotFoundException (404), each with a human-readable message. -/
inductive HttpError where
  | unauthorized (msg : String)
  | forbidden (msg : String)
  | conflict (msg : String)
  | notFound (msg : String)
  deriving DecidableEq

/-- Whether an error is the 401 UnauthorizedException (NotAuthenticated) kind. -/
def HttpError.isUnauthorized : HttpError → Bool
  | .unauthorized _ => true
  | _ => false

/-- Whether an error is the 409 ConflictException kind. -/
def HttpError.isConflict : HttpError → Bool
  | .conflict _ => true
  | _ => false

/-- Whether an error is the 403 ForbiddenException kind. -/
def HttpError.isForbidden : HttpError → Bool
  | .forbidden _ => true
  | _ => false

/-- Modelled from the spec: the one-way hash applied by the bcrypt library
(the library itself is not under src/; UsersService.create calls
bcrypt.hash(password, 10)). Modelled as a deterministic tagging function;
one-wayness is outside the embedding, but the hash is provably distinct
from its input. -/
def bcryptHash (pw : String) : String := "$2b$10$" ++ pw

/-- Modelled from the spec: bcrypt.compare(password, hash) — the one-way,
salted comparison succeeds exactly when the stored hash was produced from
the submitted password. -/
def bcryptCompare (pw h : String) : Bool := bcryptHash pw == h

/-- The users store backing UsersService: the rows plus the next
auto-generated primary key. -/
structure UsersDB where
  users : List User
  nextId : Nat
  deriving DecidableEq

/-- UsersService.findByEmail: first user whose email matches. -/
def UsersService.findByEmail (db : UsersDB) (email : String) : Option User :=
  db.users.find? (fun u => u.email == email)

/-- UsersService.findOne: first user whose id matches. -/
def UsersService.findOne (db : UsersDB) (id : Nat) : Option User :=
  db.users.find? (fun u => u.id == id)

/-- Input to UsersService.create (name, email, plaintext password, role). -/
structure CreateUserDto where
  name : String
  email : String
  password : String
  role : String
  deriving DecidableEq

/-- UsersService.create: hashes the password with bcrypt, then persists the
new row with the next generated id. Returns the saved user and the new store. -/
def UsersService.create (db : UsersDB) (dto : CreateUserDto) : User × UsersDB :=
  let hashed := bcryptHash dto.password
  let u : User := ⟨db.nextId, dto.name, dto.email, hashed, dto.role⟩
  (u, ⟨db.users ++ [u], db.nextId + 1⟩)

/-- UsersService.validatePassword: bcrypt.compare(password, user.password). -/
def UsersService.validatePassword (u : User) (password : String) : Bool :=
  bcryptCompare password u.password

/-- The JWT signing key configured in the JwtModule and in JwtStrategy
(secretOrKey: the same constant on both sides). -/
def serverKey : String := "abc123"

/-- The claim set put into a token by AuthService.login:
{ email, sub: user.id, role }. -/
structure JwtPayload where
  email : String
  sub : Nat
  role : String
  deriving DecidableEq

/-- A signed token: the claim set plus issued-at, expiry, and the key it was
signed with. -/
structure Token where
  payload : JwtPayload
  iat : Nat
  exp : Nat
  signedWith : String
  deriving DecidableEq

/-- Modelled from the spec: jwtService.sign (the jwt library is not under
src/) — produces a token carrying the claim set, timestamps, and the
signing key. -/
def JwtService.sign (key : String) (now lifetime : Nat) (p : JwtPayload) : Token :=
  ⟨p, now, now + lifetime, key⟩

/-- Modelled from the spec: passport-jwt verification as configured in
JwtStrategy (ignoreExpiration: false, secretOrKey: serverKey) — the claim
set is released only if the token was signed with the server's key and its
expiry has not passed. -/
def verifyToken (now : Nat) (t : Token) : Option JwtPayload :=
  if t.signedWith = serverKey ∧ now < t.exp then some t.payload else none

/-- The successful login/registration response: { access_token, user }. -/
structure LoginResult where
  access_token : Token
  user : PublicUser
  deriving DecidableEq

/-- Dropping the password field: the object spread { password: _, ...result }. -/
def User.toPublic (u : User) : PublicUser := ⟨u.id, u.name, u.email, u.role⟩

/-- AuthService.validateUser: look the principal up by email; fail
Unauthorized on a missing principal or a failed bcrypt comparison — with
the identical message in both cases — and otherwise return the principal
without its password field. -/
def AuthService.validateUser (db : UsersDB) (email password : String) :
    Except HttpError PublicUser :=
  match UsersService.findByEmail db email with
  | none => .error (.unauthorized "Invalid credentials")
  | some u =>
    if UsersService.validatePassword u password
    then .ok u.toPublic
    else .error (.unauthorized "Invalid credentials")

/-- AuthService.login: sign { email, sub: user.id, role } and return the token
together with the redacted view { id, name, email, role }. -/
def AuthService.login (now lifetime : Nat) (u : PublicUser) : LoginResult :=
  { access_token := JwtService.sign serverKey now lifetime ⟨u.email, u.id, u.role⟩
    user := ⟨u.id, u.name, u.email, u.role⟩ }

/-- AuthController.login: validate the credentials, then mint the token. -/
def AuthController.login (db : UsersDB) (now lifetime : Nat)
    (email password : String) : Except HttpError LoginResult :=
  match AuthService.validateUser db email password with
  | .error e => .error e
  | .ok u => .ok (AuthService.login now lifetime u)

/-- The registration request body: { name, email, password, role? }. -/
structure RegisterDto where
  name : String
  email : String
  password : String
  role : Option String
  deriving DecidableEq

/-- The JS defaulting expression registerDto.role || the student constant:
an absent or empty (falsy) role defaults to student. -/
def jsRoleOrStudent : Option String → String
  | none => "student"
  | some r => if r = "" then "student" else r

/-- AuthService.register: reject an already-registered email with
UnauthorizedException (message: Email already exists); otherwise create the
user (password hashed inside UsersService.create) and log the new principal
in. The returned store is unchanged on failure. -/
def AuthService.register (db : UsersDB) (now lifetime : Nat) (dto : RegisterDto) :
    Except HttpError LoginResult × UsersDB :=
  match UsersService.findByEmail db dto.email with
  | some _ => (.error (.unauthorized "Email already exists"), db)
  | none =>
    let r := UsersService.create db
      ⟨dto.name, dto.email, dto.password, jsRoleOrStudent dto.role⟩
    (.ok (AuthService.login now lifetime r.1.toPublic), r.2)

/-- The authenticated request context attached as req.user:
{ id, email, role, name }. -/
structure ReqUser where
  id : Nat
  email : String
  role : String
  name : String
  deriving DecidableEq

/-- JwtStrategy.validate: re-fetch the principal by the claim set's subject
id; fail Unauthorized if it no longer exists, else build the request context
entirely from the freshly fetched record. -/
def JwtStrategy.validate (db : UsersDB) (payload : JwtPayload) :
    Except HttpError ReqUser :=
  match UsersService.findOne db payload.sub with
  | none => .error (.unauthorized "Unauthorized")
  | some u => .ok ⟨u.id, u.email, u.role, u.name⟩

/-- The full access gate (JwtAuthGuard): verify signature and expiry, then
resolve the principal via JwtStrategy.validate. A verification failure is
the passport 401 UnauthorizedException. -/
def jwtGate (db : UsersDB) (now : Nat) (t : Token) : Except HttpError ReqUser :=
  match verifyToken now t with
  | none => .error (.unauthorized "Unauthorized")
  | some p => JwtStrategy.validate db p

/-- A course row: id, title, description, instructor id. -/
structure Course where
  id : Nat
  title : String
  description : String
  instructorId : Nat
  deriving DecidableEq

/-- The courses store backing CoursesService. -/
structure CoursesDB where
  courses : List Course
  nextId : Nat
  deriving DecidableEq

/-- CoursesService.create: persist a new course with the given instructor. -/
def CoursesService.create (db : CoursesDB) (title description : String)
    (instructorId : Nat) : Course × CoursesDB :=
  let c : Course := ⟨db.nextId, title, description, instructorId⟩
  (c, ⟨db.courses ++ [c], db.nextId + 1⟩)

/-- CoursesController.create (behind JwtAuthGuard): a non-admin req.user is
rejected with ForbiddenException; an admin's request creates the course with
the requester as instructor. The store is unchanged on failure. -/
def CoursesController.create (user : ReqUser) (db : CoursesDB)
    (title description : String) : Except HttpError Course × CoursesDB :=
  if user.role ≠ "admin"
  then (.error (.forbidden "Only admins can create courses"), db)
  else
    let r := CoursesService.create db title description user.id
    (.ok r.1, r.2)

/-- An enrollment row pairing a student and a course. -/
structure Enrollment where
  id : Nat
  studentId : Nat
  courseId : Nat
  deriving DecidableEq

/-- The store backing EnrollmentsService: enrollment rows, the visible
courses table, and the next generated enrollment id. -/
structure EnrollState where
  enrollments : List Enrollment
  courses : List Course
  nextId : Nat
  deriving DecidableEq

/-- EnrollmentsService.enroll: Conflict if an enrollment pairing this student
and course exists, NotFound if the course does not exist, else persist a new
enrollment. The store is unchanged on failure. -/
def EnrollmentsService.enroll (st : EnrollState) (studentId courseId : Nat) :
    Except HttpError Enrollment × EnrollState :=
  match st.enrollments.find?
      (fun e => e.studentId == studentId && e.courseId == courseId) with
  | some _ => (.error (.conflict "Already enrolled"), st)
  | none =>
    match st.courses.find? (fun c => c.id == courseId) with
    | none => (.error (.notFound "Course not found"), st)
    | some _ =>
      let e : Enrollment := ⟨st.nextId, studentId, courseId⟩
      (.ok e, ⟨st.enrollments ++ [e], st.courses, st.nextId + 1⟩)

/-- The client-durable storage: the token and user entries of localStorage. -/
structure ClientStorage where
  token : Option String
  user : Option String
  deriving DecidableEq

/-- What the axios response interceptor sees: either a fulfilled response
(with its status) or a rejection whose error.response?.status is present or
absent (absent for network errors). -/
inductive RespEvent where
  | success (status : Nat)
  | failure (status : Option Nat)
  deriving DecidableEq

/-- The outcome of the interceptor on the client: the storage afterwards and
the navigation target assigned to window.location.href, if any. -/
structure InterceptOutcome where
  storage : ClientStorage
  navTarget : Option String
  deriving DecidableEq

/-- The response interceptor in frontend api.jsx: fulfilled responses pass
through untouched; a rejection whose status is 401 removes the token and
user entries and navigates to the login page; any other rejection leaves
storage untouched. -/
def responseInterceptor (st : ClientStorage) (ev : RespEvent) : InterceptOutcome :=
  match ev with
  | .success _ => ⟨st, none⟩
  | .failure s =>
    if s = some 401 then ⟨⟨none, none⟩, some "/login"⟩ else ⟨st, none⟩

/-- Modelled from the spec: axios's default validateStatus (the axios library
is not under src/) — an inbound response with a 2xx status fulfills, any
other status rejects with error.response carrying that status. -/
def axiosDispatch (status : Nat) : RespEvent :=
  if 200 ≤ status ∧ status < 300 then .success status else .failure (some status)

/-- The client's reaction to an inbound HTTP response with the given status:
axios dispatch followed by the response interceptor. -/
def clientOnResponse (st : ClientStorage) (status : Nat) : InterceptOutcome :=
  responseInterceptor st (axiosDispatch status)

deriving instance DecidableEq for Except

/-! Concrete fixtures used by witnesses and counterexamples. -/

/-- A registered principal used for concrete runs of registration. -/
def c1User : User := ⟨1, "Alice", "alice@example.com", bcryptHash "pw1", "student"⟩

/-- A store already holding c1User. -/
def c1Db : UsersDB := ⟨[c1User], 2⟩

/-- A registration request reusing c1User's email. -/
def c1Dto : RegisterDto := ⟨"Bob", "alice@example.com", "pw2", none⟩

/-- An empty users store. -/
def emptyDb : UsersDB := ⟨[], 1⟩

/-- C1 counterexample: on a concrete store already holding the email, the
second registration fails with UnauthorizedException (401, message: Email
already exists), which is not a Conflict (409) error — refuting the claim
that the duplicate-email failure is a Conflict error. -/
theorem register_duplicate_not_conflict_cex :
    (AuthService.register c1Db 0 3600 c1Dto).1
        = Except.error (HttpError.unauthorized "Email already exists")
      ∧ (HttpError.unauthorized "Email already exists").isConflict = false := by
  decide

/-- C1 (amended): a registration request whose email equals that of an
already-registered principal fails with the 401 UnauthorizedException
(message: Email already exists) — not a Conflict — and the users store,
hence the existing principal's record (name, email, hashed secret, role),
is unchanged by the failed attempt. -/
theorem register_duplicate_unauthorized_unchanged
    (db : UsersDB) (now lifetime : Nat) (dto : RegisterDto) (u : User)
    (h : UsersService.findByEmail db dto.email = some u) :
    AuthService.register db now lifetime dto
      = (Except.error (HttpError.unauthorized "Email already exists"), db) := by
  simp [AuthService.register, h]

/-- C1 witness: the amended theorem applied at the concrete duplicate
registration. -/
theorem register_duplicate_unauthorized_unchanged_witness :
    AuthService.register c1Db 0 3600 c1Dto
      = (Except.error (HttpError.unauthorized "Email already exists"), c1Db) :=
  register_duplicate_unauthorized_unchanged c1Db 0 3600 c1Dto c1User (by decide)

/-- C2: every failing login — missing email or wrong password alike — returns
the 401 UnauthorizedException with the one message Invalid credentials, so
any two failing runs produce equal error outputs. -/
theorem login_failure_uniform
    (db : UsersDB) (now lifetime : Nat) (email password : String) (e : HttpError)
    (h : AuthController.login db now lifetime email password = Except.error e) :
    e = HttpError.unauthorized "Invalid credentials" := by
  unfold AuthController.login AuthService.validateUser at h
  cases hf : UsersService.findByEmail db email with
  | none =>
    rw [hf] at h
    exact (Except.error.injEq .. ▸ h).symm
  | some u =>
    rw [hf] at h
    by_cases hv : UsersService.validatePassword u password
    · simp [hv] at h
    · simp [hv] at h
      exact h.symm

/-- C2 witness: a concrete failing login (empty store) yields exactly the
uniform error. -/
theorem login_failure_uniform_witness :
    AuthController.login emptyDb 0 3600 "x@y.z" "pw"
        = Except.error (HttpError.unauthorized "Invalid credentials")
      ∧ HttpError.unauthorized "Invalid credentials"
        = HttpError.unauthorized "Invalid credentials" :=
  ⟨by decide, login_failure_uniform emptyDb 0 3600 "x@y.z" "pw" _ (by decide)⟩

/-- C3: for a stored principal, logging in with that principal's email and a
password passing the stored-hash comparison succeeds; the signed token's
decoded claim set has subject equal to the stored principal's id, and the
returned principal view is { id, name, email, role }. -/
theorem login_success_token_subject
    (db : UsersDB) (now lifetime : Nat) (u : User) (password : String)
    (hfind : UsersService.findByEmail db u.email = some u)
    (hpw : UsersService.validatePassword u password = true) :
    AuthController.login db now lifetime u.email password
        = Except.ok (AuthService.login now lifetime u.toPublic)
      ∧ (AuthService.login now lifetime u.toPublic).access_token.payload.sub = u.id
      ∧ (AuthService.login now lifetime u.toPublic).user
        = ⟨u.id, u.name, u.email, u.role⟩ := by
  refine ⟨?_, rfl, rfl⟩
  simp [AuthController.login, AuthService.validateUser, hfind, hpw]

/-- C3 witness: the concrete stored principal logs in with the matching
password; the token subject is the stored id 1. -/
theorem login_success_token_subject_witness :
    AuthController.login c1Db 5 3600 "alice@example.com" "pw1"
        = Except.ok (AuthService.login 5 3600 c1User.toPublic)
      ∧ (AuthService.login 5 3600 c1User.toPublic).access_token.payload.sub = 1
      ∧ (AuthService.login 5 3600 c1User.toPublic).user
        = ⟨1, "Alice", "alice@example.com", "student"⟩ := by
  have h := login_success_token_subject c1Db 5 3600 c1User "pw1"
    (by decide) (by decide)
  exact ⟨h.1, h.2.1, h.2.2⟩

/-- C4: the gate rejects with the 401 UnauthorizedException every token that
was signed with a key different from the server's, or whose expiry has
passed, no matter how the token is otherwise formed. -/
theorem gate_rejects_bad_key_or_expired
    (db : UsersDB) (now : Nat) (t : Token)
    (h : t.signedWith ≠ serverKey ∨ t.exp ≤ now) :
    jwtGate db now t = Except.error (HttpError.unauthorized "Unauthorized") := by
  have hno : ¬(t.signedWith = serverKey ∧ now < t.exp) := by
    rcases h with h | h
    · exact fun hc => h hc.1
    · exact fun hc => absurd hc.2 (Nat.not_lt.mpr h)
  simp [jwtGate, verifyToken, hno]

/-- C4 witness: a structurally well-formed token signed with a different key
is rejected, and so is an expired token signed with the right key. -/
theorem gate_rejects_bad_key_or_expired_witness :
    jwtGate c1Db 10 ⟨⟨"alice@example.com", 1, "student"⟩, 0, 3600, "otherkey"⟩
        = Except.error (HttpError.unauthorized "Unauthorized")
      ∧ jwtGate c1Db 5000 ⟨⟨"alice@example.com", 1, "student"⟩, 0, 3600, "abc123"⟩
        = Except.error (HttpError.unauthorized "Unauthorized") :=
  ⟨gate_rejects_bad_key_or_expired c1Db 10
      ⟨⟨"alice@example.com", 1, "student"⟩, 0, 3600, "otherkey"⟩
      (Or.inl (by decide)),
   gate_rejects_bad_key_or_expired c1Db 5000
      ⟨⟨"alice@example.com", 1, "student"⟩, 0, 3600, "abc123"⟩
      (Or.inr (by decide))⟩

/-- C5: when verification releases the claim set, the gate re-fetches the
principal whose id equals the subject claim: a vanished principal fails with
the 401 UnauthorizedException, and otherwise the attached request context is
{ id, email, role, name } built entirely from the freshly fetched record —
in particular its role is the record's role, whatever role the claim set
carries. -/
theorem gate_resolves_fresh_principal
    (db : UsersDB) (now : Nat) (t : Token) (p : JwtPayload)
    (hv : verifyToken now t = some p) :
    (UsersService.findOne db p.sub = none →
        jwtGate db now t = Except.error (HttpError.unauthorized "Unauthorized"))
      ∧ (∀ u, UsersService.findOne db p.sub = some u →
        jwtGate db now t = Except.ok ⟨u.id, u.email, u.role, u.name⟩) := by
  constructor
  · intro hnone
    simp [jwtGate, hv, JwtStrategy.validate, hnone]
  · intro u hu
    simp [jwtGate, hv, JwtStrategy.validate, hu]

/-- C5 witness: a token whose claim set still says role student resolves to a
context carrying the record's current role admin — and with the principal
deleted, the same token is rejected. -/
theorem gate_resolves_fresh_principal_witness :
    jwtGate ⟨[⟨1, "Alice", "alice@example.com", bcryptHash "pw1", "admin"⟩], 2⟩ 10
        ⟨⟨"alice@example.com", 1, "student"⟩, 0, 3600, "abc123"⟩
        = Except.ok ⟨1, "alice@example.com", "admin", "Alice"⟩
      ∧ jwtGate emptyDb 10 ⟨⟨"alice@example.com", 1, "student"⟩, 0, 3600, "abc123"⟩
        = Except.error (HttpError.unauthorized "Unauthorized") :=
  ⟨(gate_resolves_fresh_principal
      ⟨[⟨1, "Alice", "alice@example.com", bcryptHash "pw1", "admin"⟩], 2⟩ 10
      ⟨⟨"alice@example.com", 1, "student"⟩, 0, 3600, "abc123"⟩
      ⟨"alice@example.com", 1, "student"⟩ (by decide)).2
      ⟨1, "Alice", "alice@example.com", bcryptHash "pw1", "admin"⟩ (by decide),
   (gate_resolves_fresh_principal emptyDb 10
      ⟨⟨"alice@example.com", 1, "student"⟩, 0, 3600, "abc123"⟩
      ⟨"alice@example.com", 1, "student"⟩ (by decide)).1 (by decide)⟩

/-- C6: course creation with a resolved non-admin principal fails with the
403 ForbiddenException — a kind distinct from the 401 UnauthorizedException —
leaving the courses store unchanged, while the same request with a resolved
admin principal creates and persists the course. -/
theorem course_create_role_gate
    (user : ReqUser) (db : CoursesDB) (title description : String) :
    (user.role ≠ "admin" →
        CoursesController.create user db title description
            = (Except.error (HttpError.forbidden "Only admins can create courses"), db)
          ∧ (HttpError.forbidden "Only admins can create courses").isForbidden = true
          ∧ (HttpError.forbidden "Only admins can create courses").isUnauthorized
            = false)
      ∧ (user.role = "admin" →
        CoursesController.create user db title description
          = (Except.ok ⟨db.nextId, title, description, user.id⟩,
             ⟨db.courses ++ [⟨db.nextId, title, description, user.id⟩],
              db.nextId + 1⟩)) := by
  constructor
  · intro h
    refine ⟨?_, rfl, rfl⟩
    simp [CoursesController.create, h]
  · intro h
    simp [CoursesController.create, CoursesService.create, h]

/-- C6 witness: a student principal is rejected with Forbidden and an admin
principal creates the course, on the same concrete request. -/
theorem course_create_role_gate_witness :
    (CoursesController.create ⟨7, "s@x.y", "student", "Stu"⟩ ⟨[], 1⟩ "T" "D"
          = (Except.error (HttpError.forbidden "Only admins can create courses"),
             ⟨[], 1⟩)
        ∧ (HttpError.forbidden "Only admins can create courses").isForbidden = true
        ∧ (HttpError.forbidden "Only admins can create courses").isUnauthorized
          = false)
      ∧ CoursesController.create ⟨7, "a@x.y", "admin", "Adm"⟩ ⟨[], 1⟩ "T" "D"
        = (Except.ok ⟨1, "T", "D", 7⟩, ⟨[⟨1, "T", "D", 7⟩], 2⟩) :=
  ⟨(course_create_role_gate ⟨7, "s@x.y", "student", "Stu"⟩ ⟨[], 1⟩ "T" "D").1
      (by decide),
   (course_create_role_gate ⟨7, "a@x.y", "admin", "Adm"⟩ ⟨[], 1⟩ "T" "D").2
      (by decide)⟩

/-- C7: a successful registration persists exactly one new record whose
stored secret is the bcrypt hash of the submitted password — provably
different from the plaintext — and the response's principal view is the
redacted { id, name, email, role } object, a type with no password field. -/
theorem register_hashes_and_redacts
    (db : UsersDB) (now lifetime : Nat) (dto : RegisterDto)
    (r : LoginResult) (db' : UsersDB)
    (h : AuthService.register db now lifetime dto = (Except.ok r, db')) :
    db'.users = db.users ++
        [⟨db.nextId, dto.name, dto.email, bcryptHash dto.password,
          jsRoleOrStudent dto.role⟩]
      ∧ bcryptHash dto.password ≠ dto.password
      ∧ r.user = ⟨db.nextId, dto.name, dto.email, jsRoleOrStudent dto.role⟩ := by
  have hsep : bcryptHash dto.password ≠ dto.password := by
    intro heq
    have hlen := congrArg String.length heq
    simp [bcryptHash, String.length_append] at hlen
    exact absurd hlen (by decide)
  unfold AuthService.register at h
  cases hf : UsersService.findByEmail db dto.email with
  | some u => rw [hf] at h; simp at h
  | none =>
    rw [hf] at h
    simp only [UsersService.create, AuthService.login, User.toPublic,
      Prod.mk.injEq, Except.ok.injEq] at h
    obtain ⟨h1, h2⟩ := h
    refine ⟨by rw [← h2], hsep, ?_⟩
    rw [← h1]

/-- C7 witness: a concrete registration on the empty store persists the
hashed secret and answers with the redacted view. -/
theorem register_hashes_and_redacts_witness :
    UsersDB.users
        ⟨[⟨1, "Carol", "carol@example.com", bcryptHash "secret9", "student"⟩], 2⟩
        = UsersDB.users emptyDb ++
          [⟨1, "Carol", "carol@example.com", bcryptHash "secret9", "student"⟩]
      ∧ bcryptHash "secret9" ≠ "secret9"
      ∧ PublicUser.mk 1 "Carol" "carol@example.com" "student"
        = ⟨1, "Carol", "carol@example.com", "student"⟩ :=
  register_hashes_and_redacts emptyDb 0 3600 ⟨"Carol", "carol@example.com", "secret9", none⟩
    (AuthService.login 0 3600 ⟨1, "Carol", "carol@example.com", "student"⟩)
    ⟨[⟨1, "Carol", "carol@example.com", bcryptHash "secret9", "student"⟩], 2⟩
    (by decide)

/-- C8: an inbound response with HTTP status 401, whatever request produced
it, makes the interceptor remove both the token and user storage entries and
navigate to the login page; an inbound response with any other status leaves
the stored credentials unchanged and triggers no navigation. -/
theorem client_401_clears_and_redirects
    (st : ClientStorage) (status : Nat) :
    (status = 401 →
        clientOnResponse st status = ⟨⟨none, none⟩, some "/login"⟩)
      ∧ (status ≠ 401 →
        (clientOnResponse st status).storage = st
          ∧ (clientOnResponse st status).navTarget = none) := by
  constructor
  · intro h
    subst h
    simp [clientOnResponse, axiosDispatch, responseInterceptor]
  · intro h
    unfold clientOnResponse axiosDispatch responseInterceptor
    by_cases h2 : 200 ≤ status ∧ status < 300
    · simp [h2]
    · simp [h2, h]

/-- C8 witness: a 401 wipes a populated storage and redirects; a 500 and a
200 both leave it intact. -/
theorem client_401_clears_and_redirects_witness :
    clientOnResponse ⟨some "tok", some "usr"⟩ 401 = ⟨⟨none, none⟩, some "/login"⟩
      ∧ ((clientOnResponse ⟨some "tok", some "usr"⟩ 500).storage
            = ⟨some "tok", some "usr"⟩
          ∧ (clientOnResponse ⟨some "tok", some "usr"⟩ 500).navTarget = none)
      ∧ ((clientOnResponse ⟨some "tok", some "usr"⟩ 200).storage
            = ⟨some "tok", some "usr"⟩
          ∧ (clientOnResponse ⟨some "tok", some "usr"⟩ 200).navTarget = none) :=
  ⟨(client_401_clears_and_redirects ⟨some "tok", some "usr"⟩ 401).1 (by decide),
   (client_401_clears_and_redirects ⟨some "tok", some "usr"⟩ 500).2 (by decide),
   (client_401_clears_and_redirects ⟨some "tok", some "usr"⟩ 200).2 (by decide)⟩

/-- C9: a successful registration stores the principal with role student when
the optional role field is absent or empty, and with exactly the supplied
role otherwise. -/
theorem register_role_defaulting
    (db : UsersDB) (now lifetime : Nat) (dto : RegisterDto)
    (r : LoginResult) (db' : UsersDB)
    (h : AuthService.register db now lifetime dto = (Except.ok r, db')) :
    ((dto.role = none ∨ dto.role = some "") →
        db'.users = db.users ++
          [⟨db.nextId, dto.name, dto.email, bcryptHash dto.password, "student"⟩])
      ∧ (∀ s, dto.role = some s → s ≠ "" →
        db'.users = db.users ++
          [⟨db.nextId, dto.name, dto.email, bcryptHash dto.password, s⟩]) := by
  unfold AuthService.register at h
  cases hf : UsersService.findByEmail db dto.email with
  | some u => rw [hf] at h; simp at h
  | none =>
    rw [hf] at h
    simp only [UsersService.create, AuthService.login, User.toPublic,
      Prod.mk.injEq, Except.ok.injEq] at h
    obtain ⟨h1, h2⟩ := h
    constructor
    · intro hr
      rw [← h2]
      rcases hr with hr | hr <;> simp [jsRoleOrStudent, hr]
    · intro s hs hne
      rw [← h2]
      simp [jsRoleOrStudent, hs, hne]

/-- C9 witness: registering without a role stores role student; registering
with role admin stores role admin. -/
theorem register_role_defaulting_witness :
    UsersDB.users
        ⟨[⟨1, "Dan", "dan@example.com", bcryptHash "pw", "student"⟩], 2⟩
        = UsersDB.users emptyDb ++
          [⟨1, "Dan", "dan@example.com", bcryptHash "pw", "student"⟩]
      ∧ UsersDB.users
        ⟨[⟨1, "Eve", "eve@example.com", bcryptHash "pw", "admin"⟩], 2⟩
        = UsersDB.users emptyDb ++
          [⟨1, "Eve", "eve@example.com", bcryptHash "pw", "admin"⟩] :=
  ⟨(register_role_defaulting emptyDb 0 3600 ⟨"Dan", "dan@example.com", "pw", none⟩
      (AuthService.login 0 3600 ⟨1, "Dan", "dan@example.com", "student"⟩)
      ⟨[⟨1, "Dan", "dan@example.com", bcryptHash "pw", "student"⟩], 2⟩
      (by decide)).1 (Or.inl rfl),
   (register_role_defaulting emptyDb 0 3600
      ⟨"Eve", "eve@example.com", "pw", some "admin"⟩
      (AuthService.login 0 3600 ⟨1, "Eve", "eve@example.com", "admin"⟩)
      ⟨[⟨1, "Eve", "eve@example.com", bcryptHash "pw", "admin"⟩], 2⟩
      (by decide)).2 "admin" rfl (by decide)⟩

/-- C10: enrolling a student into a course fails with Conflict when an
enrollment pairing them already exists and with NotFound when no such course
exists — in both cases the store is returned unchanged, so nothing is
persisted — and otherwise persists exactly one new enrollment row. -/
theorem enroll_conflict_notfound_persist
    (st : EnrollState) (studentId courseId : Nat) :
    ((∃ e ∈ st.enrollments, e.studentId = studentId ∧ e.courseId = courseId) →
        EnrollmentsService.enroll st studentId courseId
          = (Except.error (HttpError.conflict "Already enrolled"), st))
      ∧ ((∀ e ∈ st.enrollments,
            ¬(e.studentId = studentId ∧ e.courseId = courseId)) →
         (∀ c ∈ st.courses, c.id ≠ courseId) →
        EnrollmentsService.enroll st studentId courseId
          = (Except.error (HttpError.notFound "Course not found"), st))
      ∧ ((∀ e ∈ st.enrollments,
            ¬(e.studentId = studentId ∧ e.courseId = courseId)) →
         (∃ c ∈ st.courses, c.id = courseId) →
        EnrollmentsService.enroll st studentId courseId
          = (Except.ok ⟨st.nextId, studentId, courseId⟩,
             ⟨st.enrollments ++ [⟨st.nextId, studentId, courseId⟩],
              st.courses, st.nextId + 1⟩)) := by
  have hnone : (∀ e ∈ st.enrollments,
      ¬(e.studentId = studentId ∧ e.courseId = courseId)) →
      st.enrollments.find?
        (fun e => e.studentId == studentId && e.courseId == courseId) = none := by
    intro hno
    rw [List.find?_eq_none]
    intro e he
    have hne := hno e he
    simp only [Bool.and_eq_true, beq_iff_eq]
    exact fun hp => hne hp
  refine ⟨?_, ?_, ?_⟩
  · rintro ⟨e, he, h1, h2⟩
    have hs : (st.enrollments.find?
        (fun e => e.studentId == studentId && e.courseId == courseId)).isSome := by
      rw [List.find?_isSome]
      exact ⟨e, he, by simp [h1, h2]⟩
    obtain ⟨e0, he0⟩ := Option.isSome_iff_exists.mp hs
    simp [EnrollmentsService.enroll, he0]
  · intro hno hc
    have hcourse : st.courses.find? (fun c => c.id == courseId) = none := by
      rw [List.find?_eq_none]
      intro c hcin
      simp only [beq_iff_eq]
      exact hc c hcin
    simp [EnrollmentsService.enroll, hnone hno, hcourse]
  · rintro hno ⟨c, hcin, hcid⟩
    have hs : (st.courses.find? (fun c => c.id == courseId)).isSome := by
      rw [List.find?_isSome]
      exact ⟨c, hcin, by simp [hcid]⟩
    obtain ⟨c0, hc0⟩ := Option.isSome_iff_exists.mp hs
    simp [EnrollmentsService.enroll, hnone hno, hc0]

/-- C10 witness: on a store with course 5 and an enrollment of student 2 in
course 5 — re-enrolling student 2 yields Conflict with the store unchanged,
enrolling student 3 into the nonexistent course 9 yields NotFound with the
store unchanged, and enrolling student 3 into course 5 persists one row. -/
theorem enroll_conflict_notfound_persist_witness :
    EnrollmentsService.enroll ⟨[⟨1, 2, 5⟩], [⟨5, "T", "D", 1⟩], 2⟩ 2 5
        = (Except.error (HttpError.conflict "Already enrolled"),
           ⟨[⟨1, 2, 5⟩], [⟨5, "T", "D", 1⟩], 2⟩)
      ∧ EnrollmentsService.enroll ⟨[⟨1, 2, 5⟩], [⟨5, "T", "D", 1⟩], 2⟩ 3 9
        = (Except.error (HttpError.notFound "Course not found"),
           ⟨[⟨1, 2, 5⟩], [⟨5, "T", "D", 1⟩], 2⟩)
      ∧ EnrollmentsService.enroll ⟨[⟨1, 2, 5⟩], [⟨5, "T", "D", 1⟩], 2⟩ 3 5
        = (Except.ok ⟨2, 3, 5⟩,
           ⟨[⟨1, 2, 5⟩, ⟨2, 3, 5⟩], [⟨5, "T", "D", 1⟩], 3⟩) :=
  ⟨(enroll_conflict_notfound_persist ⟨[⟨1, 2, 5⟩], [⟨5, "T", "D", 1⟩], 2⟩ 2 5).1
      (by decide),
   (enroll_conflict_notfound_persist ⟨[⟨1, 2, 5⟩], [⟨5, "T", "D", 1⟩], 2⟩ 3 9).2.1
      (by decide) (by decide),
   (enroll_conflict_notfound_persist ⟨[⟨1, 2, 5⟩], [⟨5, "T", "D", 1⟩], 2⟩ 3 5).2.2
      (by decide) (by decide)⟩
